import Mathlib

/-!
Shallow embedding of the data-labeling and splitting pipeline of the
AutoML workshop notebooks (energy-demand forecasting and turbofan
remaining-useful-life regression), together with the two scoring
scripts the notebooks write out (`score_energy_demand.py`, `score.py`).

Conventions:
* timestamps are encoded as natural numbers `yyyymmdd`, which is
  order-isomorphic to the string/`Timestamp` comparisons the notebook
  performs (`data['timeStamp'] < '2017-02-01'`);
* numeric cell values are rationals; a possibly-missing (NaN) value is
  an `Option ℚ` with `none` for NaN;
* a pandas `DataFrame` is a list of column names plus a list of rows.
-/

namespace AutomlWorkshop

/-! ## Definitions

### Maintenance scenario: turbofan records and RUL derivation

Source notebook cell:
```
def assignrul(df):
    maxi = df['cycle'].max()
    df['rul'] = maxi - df['cycle']
    return df

train_new = train.groupby('unit').apply(assignrul)
```
-/

/-- One row of the turbofan training set, reduced to the grouping key
(`unit`) and the ordering key (`cycle`); the 24 sensor/os columns do not
participate in the RUL derivation. -/
structure TRec where
  unit : Nat
  cycle : Int
deriving DecidableEq, Repr

/-- A turbofan row after `assignrul` added the `rul` column. -/
structure LRec where
  unit : Nat
  cycle : Int
  rul : Int
deriving DecidableEq, Repr

/-- `df['cycle'].max()` on a group: maximum of a list of cycles.  The
empty case is dead code (`groupby` only yields nonempty groups). -/
def listMax : List Int → Int
  | [] => 0
  | x :: xs => xs.foldl max x

/-- The notebook's `assignrul`: compute the maximal cycle of the group
and set `rul = maxi - cycle` on every row of the group. -/
def assignrul (g : List TRec) : List LRec :=
  let maxi := listMax (g.map (·.cycle))
  g.map fun r => ⟨r.unit, r.cycle, maxi - r.cycle⟩

/-- The distinct unit ids of a dataset (the groups of `groupby('unit')`). -/
def unitsOf (d : List TRec) : List Nat :=
  (d.map (·.unit)).dedup

/-- `train.groupby('unit').apply(assignrul)`: apply `assignrul` to every
unit's group of rows and concatenate the results. -/
def deriveRUL (d : List TRec) : List LRec :=
  (unitsOf d).flatMap fun u => assignrul (d.filter fun r => r.unit = u)

/-- The maximal cycle recorded for unit `u` in dataset `d`. -/
def maxCycleOf (d : List TRec) (u : Nat) : Int :=
  listMax ((d.filter fun r => r.unit = u).map (·.cycle))

/-- The five-row example dataset of the spec scenario: unit 1 with cycles
1,2,3 and unit 2 with cycles 1,2. -/
def sampleTurbofan : List TRec :=
  [⟨1, 1⟩, ⟨1, 2⟩, ⟨1, 3⟩, ⟨2, 1⟩, ⟨2, 2⟩]

/-!
### Energy scenario: temporal train/test split

Source notebook cells:
```
train = data[data['timeStamp'] < '2017-02-01']
test = data[data['timeStamp'] >= '2017-02-01']
...
X_train = train[train['timeStamp'] < '2017-01-01']
X_valid = train[train['timeStamp'] >= '2017-01-01']
```
-/

/-- One row of `nyc_energy.csv`: timestamp (encoded `yyyymmdd`), demand
(possibly NaN, hence `Option`), precipitation and temperature. -/
structure ERec where
  timeStamp : Nat
  demand : Option ℚ
  precip : ℚ
  temp : ℚ
deriving DecidableEq, Repr

/-- The notebook's boundary split at a cutover timestamp: rows strictly
before the cutover on the left, rows at-or-after it on the right. -/
def temporal_split (cut : Nat) (d : List ERec) : List ERec × List ERec :=
  (d.filter fun r => r.timeStamp < cut, d.filter fun r => cut ≤ r.timeStamp)

/-- A three-row sample of the energy dataset spanning 2016-01 to 2017-03. -/
def sampleEnergy : List ERec :=
  [⟨20160105, some 1, 0, 2⟩, ⟨20170115, some 3, 1, 5⟩, ⟨20170301, none, 0, 7⟩]

/-!
### Maintenance scenario: seeded random train/test split

Source notebook cell:
```
from sklearn.model_selection import train_test_split
X_train, X_test, y_train, y_test = train_test_split(X_train, y_train,
                                                    test_size=0.3,
                                                    random_state=100)
```
`train_test_split` draws a seed-determined permutation of the rows and
takes the first `⌈0.3·n⌉` permuted rows as the test subset, the remaining
rows as the train subset.  The numpy `RandomState` permutation stream is
modelled by a deterministic linear congruential generator; every property
proved below holds for an arbitrary seed-determined permutation. -/

/-- One step of a linear congruential generator (glibc multiplier),
standing in for the `numpy.random.RandomState` stream. -/
def lcgNext (s : Nat) : Nat := (1103515245 * s + 12345) % 2147483648

/-- Fuel-indexed selection shuffle: repeatedly pick the element at the
pseudo-random index `s % length` and recurse on the rest. -/
def shuffleAux {α : Type} : Nat → Nat → List α → List α
  | 0, _, _ => []
  | _ + 1, _, [] => []
  | fuel + 1, s, a :: t =>
    let i : Fin (a :: t).length :=
      ⟨s % (a :: t).length, Nat.mod_lt _ (Nat.succ_pos t.length)⟩
    (a :: t).get i :: shuffleAux fuel (lcgNext s) ((a :: t).eraseIdx i.val)

/-- The seed-determined permutation of a list of rows. -/
def shuffle {α : Type} (seed : Nat) (l : List α) : List α :=
  shuffleAux l.length seed l

/-- Model of `sklearn.model_selection.train_test_split(test_size=0.3,
random_state=seed)`: the test subset is the first `⌈0.3·n⌉ = (3n+9)/10`
rows of the seed-determined permutation, the train subset the rest. -/
def train_test_split {α : Type} (l : List α) (seed : Nat) : List α × List α :=
  let n_test := (3 * l.length + 9) / 10
  let sh := shuffle seed l
  (sh.drop n_test, sh.take n_test)

/-!
### Feature-matrix extraction

Energy notebook cells (the features handed to the trainer / the fitted
model keep the `timeStamp` column — only `demand` is popped):
```
y_train = X_train.pop('demand').values
...
y_test = test.pop('demand').values
X_test = test
```
Maintenance notebook cell (unit id, cycle number and the `rul` target are
all dropped by position):
```
X_train = train_new.iloc[:,2:26].values
y_train = train_new.iloc[:,26:27].values.astype(int).flatten()
```
-/

/-- A pandas `DataFrame`: named columns plus rows of numeric cells. -/
structure Frame where
  cols : List String
  rows : List (List ℚ)
deriving DecidableEq, Repr

/-- `df.pop(c)`: remove column `c` from the frame and return the removed
column's values alongside the remaining frame. -/
def Frame.popColumn (f : Frame) (c : String) : Frame × List ℚ :=
  let i := f.cols.indexOf c
  (⟨f.cols.eraseIdx i, f.rows.map fun r => r.eraseIdx i⟩,
   f.rows.map fun r => r.getD i 0)

/-- `df.iloc[:, lo:hi]`: keep the columns with positions `lo ≤ j < hi`. -/
def Frame.ilocCols (f : Frame) (lo hi : Nat) : Frame :=
  ⟨(f.cols.drop lo).take (hi - lo), f.rows.map fun r => (r.drop lo).take (hi - lo)⟩

/-- The column layout of `nyc_energy.csv`. -/
def energyCols : List String := ["timeStamp", "demand", "precip", "temp"]

/-- The 27 columns of the turbofan frame after `assignrul` appended
`rul` to the 26 columns named in `read_csv`. -/
def turbofanLabeledCols : List String :=
  ["unit", "cycle", "os1", "os2", "os3",
   "sm1", "sm2", "sm3", "sm4", "sm5", "sm6", "sm7", "sm8", "sm9", "sm10",
   "sm11", "sm12", "sm13", "sm14", "sm15", "sm16", "sm17", "sm18", "sm19",
   "sm20", "sm21", "rul"]

/-!
### NaN alignment of predictions and ground truth

Source notebook cell:
```
if len(y_test) != len(y_pred):
    raise ValueError(
        'the true values and prediction values do not have equal length.')
elif len(y_test) == 0:
    raise ValueError(
        'y_true and y_pred are empty.')

y_test = y_test_f[~(np.isnan(y_test_f) | np.isnan(y_pred_f))]
y_pred = y_pred_f[~(np.isnan(y_test_f) | np.isnan(y_pred_f))]
```
-/

/-- The boolean mask `~(np.isnan(a) | np.isnan(b))`: `true` at positions
where neither sequence is missing. -/
def nanMask (a b : List (Option ℚ)) : List Bool :=
  List.zipWith (fun x y => !(x.isNone || y.isNone)) a b

/-- Numpy boolean-mask selection `xs[mask]`: keep the elements at the
positions where the mask is `true`. -/
def maskSelect {α : Type} : List Bool → List α → List α
  | [], _ => []
  | _, [] => []
  | m :: ms, x :: xs => if m then x :: maskSelect ms xs else maskSelect ms xs

/-- The notebook's NaN-removal step as the spec's
`alignAndFilterMissing(a, b) -> (a', b')` utility: select both sequences
by the shared not-missing mask. -/
def alignAndFilterMissing (a b : List (Option ℚ)) :
    List (Option ℚ) × List (Option ℚ) :=
  (maskSelect (nanMask a b) a, maskSelect (nanMask a b) b)

/-- The guarded form of the cell: the two `ValueError` raises become
`Except.error` with the notebook's messages, the fall-through performs
the NaN alignment. -/
def check_data (y_test y_pred : List (Option ℚ)) :
    Except String (List (Option ℚ) × List (Option ℚ)) :=
  if y_test.length ≠ y_pred.length then
    .error "the true values and prediction values do not have equal length."
  else if y_test.length = 0 then
    .error "y_true and y_pred are empty."
  else
    .ok (alignAndFilterMissing y_test y_pred)

/-!
### The two scoring scripts

`score_energy_demand.py`:
```
def run(timestamp,precip,temp):
    try:
        rawdata = json.dumps({timestamp, precip, temp})
        data = json.loads(rawdata)
        data_arr = numpy.array(data)
        result = model.predict(data_arr)
    except Exception as e:
        result = str(e)
        return json.dumps({"error": result})
    return json.dumps({"result":result.tolist()})
```
`{timestamp, precip, temp}` is a Python set literal, which `json.dumps`
rejects with a `TypeError`; moreover the script imports `numpy as np`,
so the bare name `numpy` would raise `NameError` even if serialization
succeeded.

`score.py`:
```
def run(raw_data):
    data = (np.array(json.loads(raw_data)['data'])).reshape(1,-1)
    y_hat = model.predict(data)
    return json.dumps(y_hat.tolist())
```
-/

/-- Python values the scoring scripts pass to `json.dumps`. -/
inductive PyVal where
  | num (q : ℚ)
  | str (s : String)
  | arr (elems : List PyVal)
  | obj (fields : List (String × PyVal))
  | set (elems : List PyVal)

mutual

/-- Whether Python `json.dumps` accepts the value: numbers, strings,
lists and dicts of serializable values are accepted, sets never are. -/
def serializable : PyVal → Bool
  | .num _ => true
  | .str _ => true
  | .arr l => serializableList l
  | .obj fs => serializableFields fs
  | .set _ => false

def serializableList : List PyVal → Bool
  | [] => true
  | x :: xs => serializable x && serializableList xs

def serializableFields : List (String × PyVal) → Bool
  | [] => true
  | (_, v) :: fs => serializable v && serializableFields fs

end

/-- Python `json.dumps`, abstracting the produced text by the value
itself: it succeeds exactly on serializable values and raises
`TypeError: Object of type set is not JSON serializable` on a set (the
only failure the scoring scripts can trigger). -/
def json_dumps (j : PyVal) : Except String PyVal :=
  if serializable j then .ok j
  else .error "Object of type set is not JSON serializable"

/-- The success shape of the serving contract: a one-field JSON object
whose `result` field is an array. -/
def isResultShape : PyVal → Bool
  | .obj [(k, .arr _)] => k == "result"
  | _ => false

/-- The failure shape of the serving contract: a one-field JSON object
whose `error` field is a string. -/
def isErrorShape : PyVal → Bool
  | .obj [(k, .str _)] => k == "error"
  | _ => false

/-- `run` of `score_energy_demand.py`.  The `try` body first serializes
the set literal `{timestamp, precip, temp}`; on the `TypeError` this
raises, the `except` branch returns the error object.  Were
serialization ever to succeed, the following line's reference to the
undefined name `numpy` would raise `NameError`, landing in the same
`except` branch.  `model` stands for the global loaded by `init`; the
success return is `{"result": result.tolist()}`. -/
def run_energy_demand (_model : List ℚ → List ℚ) (timestamp precip temp : PyVal) :
    PyVal :=
  match json_dumps (.set [timestamp, precip, temp]) with
  | .error e => .obj [("error", .str e)]
  | .ok _rawdata => .obj [("error", .str "name numpy is not defined")]

/-- `np.array(...).reshape(1,-1)`: flatten the request's nested `data`
array into a single row; the `-1` dimension is inferred, so every
element count fits the one row. -/
def reshape_one_row (data : List (List ℚ)) : List (List ℚ) :=
  [data.flatten]

/-- `run` of `score.py`: reshape the parsed `data` payload to one row,
predict, and return the bare JSON array of predictions (note: not
wrapped in a `result` object, and with no `try`/`except`). -/
def run_score (model : List (List ℚ) → List ℚ) (data : List (List ℚ)) : PyVal :=
  .arr ((model (reshape_one_row data)).map .num)

/-- A concrete stand-in fitted model honoring the one-prediction-per-row
contract: predicts 0 for every row. -/
def constZeroModel : List (List ℚ) → List ℚ :=
  fun m => m.map fun _ => 0

/-! ## Theorems -/

theorem le_foldl_max (t : List Int) (a : Int) : a ≤ t.foldl max a := by
  induction t generalizing a with
  | nil => exact le_refl a
  | cons b tb ih => exact le_trans (le_max_left a b) (ih (max a b))

theorem mem_le_foldl_max (t : List Int) {x : Int} (hx : x ∈ t) (a : Int) :
    x ≤ t.foldl max a := by
  induction t generalizing a with
  | nil => cases hx
  | cons b tb ih =>
    rcases List.mem_cons.mp hx with h | h
    · subst h
      exact le_trans (le_max_right a x) (le_foldl_max tb (max a x))
    · exact ih h (max a b)

theorem foldl_max_mem (t : List Int) (a : Int) : t.foldl max a ∈ a :: t := by
  induction t generalizing a with
  | nil => exact List.mem_singleton.mpr rfl
  | cons b tb ih =>
    simp only [List.foldl_cons]
    have h := ih (max a b)
    rcases List.mem_cons.mp h with h | h
    · rw [h]
      rcases max_choice a b with hm | hm <;> rw [hm]
      · exact List.mem_cons_self _ _
      · exact List.mem_cons.mpr (Or.inr (List.mem_cons_self _ _))
    · exact List.mem_cons.mpr (Or.inr (List.mem_cons.mpr (Or.inr h)))

theorem listMax_ge {l : List Int} {x : Int} (hx : x ∈ l) : x ≤ listMax l := by
  cases l with
  | nil => cases hx
  | cons a t =>
    rcases List.mem_cons.mp hx with h | h
    · subst h; exact le_foldl_max t x
    · exact mem_le_foldl_max t h a

theorem listMax_mem {l : List Int} (h : l ≠ []) : listMax l ∈ l := by
  cases l with
  | nil => exact absurd rfl h
  | cons a t => exact foldl_max_mem t a

/-- Characterization of `deriveRUL`: every output row is an input row of
the same unit and cycle, labeled with (max cycle of its group) − cycle. -/
theorem deriveRUL_mem_char {d : List TRec} {x : LRec} (hx : x ∈ deriveRUL d) :
    (⟨x.unit, x.cycle⟩ : TRec) ∈ d ∧ x.rul = maxCycleOf d x.unit - x.cycle := by
  simp only [deriveRUL, List.mem_flatMap] at hx
  obtain ⟨u, _, hxg⟩ := hx
  simp only [assignrul, List.mem_map] at hxg
  obtain ⟨r, hrg, hrx⟩ := hxg
  have hru : r.unit = u := by
    have := List.mem_filter.mp hrg
    exact of_decide_eq_true this.2
  have hrd : r ∈ d := (List.mem_filter.mp hrg).1
  subst hrx
  refine ⟨hrd, ?_⟩
  simp only [maxCycleOf, hru]

/-- Membership in `deriveRUL` built from a group member: if `u` is one of
the dataset's units and `r` belongs to `u`'s group, the labeled row for
`r` appears in the output. -/
theorem mem_deriveRUL_of {d : List TRec} {u : Nat} {r : TRec}
    (hu : u ∈ unitsOf d) (hr : r ∈ d.filter fun s => s.unit = u) :
    (⟨r.unit, r.cycle, maxCycleOf d u - r.cycle⟩ : LRec) ∈ deriveRUL d := by
  simp only [deriveRUL, List.mem_flatMap]
  exact ⟨u, hu, by
    simp only [assignrul, List.mem_map]
    exact ⟨r, hr, rfl⟩⟩

/-- C1: `deriveRUL` labels each record with (max cycle of its group) −
(its own cycle); hence the label is 0 exactly at a group's max-cycle
record, labels are non-increasing in the cycle within a group, every
group has a zero-labeled record, and the spec's five-row scenario yields
RUL `[2,1,0]` for unit 1 and `[1,0]` for unit 2. -/
theorem C1_deriveRUL_correct :
    (∀ (d : List TRec) (x : LRec), x ∈ deriveRUL d →
        x.rul = maxCycleOf d x.unit - x.cycle) ∧
    (∀ (d : List TRec) (x : LRec), x ∈ deriveRUL d →
        x.cycle = maxCycleOf d x.unit → x.rul = 0) ∧
    (∀ (d : List TRec) (x y : LRec), x ∈ deriveRUL d → y ∈ deriveRUL d →
        x.unit = y.unit → x.cycle ≤ y.cycle → y.rul ≤ x.rul) ∧
    (∀ (d : List TRec) (u : Nat), u ∈ unitsOf d →
        ∃ x ∈ deriveRUL d, x.unit = u ∧ x.rul = 0) ∧
    deriveRUL sampleTurbofan =
      [⟨1, 1, 2⟩, ⟨1, 2, 1⟩, ⟨1, 3, 0⟩, ⟨2, 1, 1⟩, ⟨2, 2, 0⟩] := by
  refine ⟨?_, ?_, ?_, ?_, by decide⟩
  · intro d x hx
    exact (deriveRUL_mem_char hx).2
  · intro d x hx hmax
    have h := (deriveRUL_mem_char hx).2
    omega
  · intro d x y hx hy hunit hcyc
    have hx2 := (deriveRUL_mem_char hx).2
    have hy2 := (deriveRUL_mem_char hy).2
    rw [hunit] at hx2
    omega
  · intro d u hu
    have hu2 : ∃ r ∈ d, r.unit = u := by
      have := List.mem_dedup.mp hu
      simpa using this
    obtain ⟨r, hrd, hru⟩ := hu2
    have hrf : r ∈ d.filter fun s => s.unit = u :=
      List.mem_filter.mpr ⟨hrd, decide_eq_true hru⟩
    have hne : ((d.filter fun s => s.unit = u).map (·.cycle)) ≠ [] := by
      intro h
      have : r.cycle ∈ ((d.filter fun s => s.unit = u).map (·.cycle)) :=
        List.mem_map.mpr ⟨r, hrf, rfl⟩
      rw [h] at this
      cases this
    have hmx := listMax_mem hne
    obtain ⟨r2, hr2f, hr2c⟩ := List.mem_map.mp hmx
    have hr2u : r2.unit = u := of_decide_eq_true (List.mem_filter.mp hr2f).2
    refine ⟨⟨r2.unit, r2.cycle, maxCycleOf d u - r2.cycle⟩,
      mem_deriveRUL_of hu hr2f, hr2u, ?_⟩
    simp only [maxCycleOf, hr2c]
    omega

/-- Witness for C1: in the five-row scenario dataset, the labeled row
`⟨unit 1, cycle 1, rul 2⟩` is in the output and its label equals the
group maximum 3 minus its cycle 1. -/
theorem C1_deriveRUL_correct_witness :
    (⟨1, 1, 2⟩ : LRec) ∈ deriveRUL sampleTurbofan ∧
    (2 : Int) = maxCycleOf sampleTurbofan 1 - 1 := by
  refine ⟨by decide, ?_⟩
  have h := C1_deriveRUL_correct.1 sampleTurbofan ⟨1, 1, 2⟩ (by decide)
  simpa using h

theorem decide_le_eq_not_decide_lt (cut t : Nat) :
    (decide (cut ≤ t)) = !(decide (t < cut)) := by
  rw [← decide_not]
  exact decide_eq_decide.mpr (Nat.not_lt).symm

/-- The two halves of a temporal split recombine to a permutation of the
input: every input row lands in exactly one half. -/
theorem temporal_split_perm (cut : Nat) (d : List ERec) :
    ((temporal_split cut d).1 ++ (temporal_split cut d).2).Perm d := by
  have hcong : (d.filter fun r => cut ≤ r.timeStamp) =
      d.filter fun r => !(decide (r.timeStamp < cut)) :=
    List.filter_congr fun x _ => decide_le_eq_not_decide_lt cut x.timeStamp
  simpa [temporal_split, hcong] using
    List.filter_append_perm (fun r : ERec => decide (r.timeStamp < cut)) d

theorem temporal_split_length (cut : Nat) (d : List ERec) :
    (temporal_split cut d).1.length + (temporal_split cut d).2.length = d.length := by
  have h := (temporal_split_perm cut d).length_eq
  simpa using h

/-- C2: every row of the train side of a temporal split is strictly
before the cutover, every row of the test side is at-or-after it, the two
sides together are a permutation of the input (each record in exactly one
side, no duplicates added), and in particular a split at 2017-02-01 puts
no row dated 2017-02-01 or later in the train side. -/
theorem C2_temporal_split_correct :
    (∀ (cut : Nat) (d : List ERec),
        (∀ r ∈ (temporal_split cut d).1, r.timeStamp < cut) ∧
        (∀ r ∈ (temporal_split cut d).2, cut ≤ r.timeStamp) ∧
        ((temporal_split cut d).1 ++ (temporal_split cut d).2).Perm d) ∧
    (∀ d : List ERec,
        ((temporal_split 20170201 d).1.filter fun r => 20170201 ≤ r.timeStamp) = []) := by
  constructor
  · intro cut d
    refine ⟨?_, ?_, temporal_split_perm cut d⟩
    · intro r hr
      exact of_decide_eq_true (List.mem_filter.mp hr).2
    · intro r hr
      exact of_decide_eq_true (List.mem_filter.mp hr).2
  · intro d
    rw [List.filter_eq_nil_iff]
    intro r hr
    have hlt : r.timeStamp < 20170201 :=
      of_decide_eq_true (List.mem_filter.mp hr).2
    simp only [decide_eq_true_eq]
    omega

/-- Witness for C2: on the three-row sample split at 2017-02-01, the
2016-01-05 row is on the train side and satisfies the bound, the
2017-03-01 row is on the test side and satisfies the bound. -/
theorem C2_temporal_split_correct_witness :
    (⟨20160105, some 1, 0, 2⟩ : ERec).timeStamp < 20170201 ∧
    20170201 ≤ (⟨20170301, none, 0, 7⟩ : ERec).timeStamp := by
  constructor
  · exact (C2_temporal_split_correct.1 20170201 sampleEnergy).1 _ (by decide)
  · exact (C2_temporal_split_correct.1 20170201 sampleEnergy).2.1 _ (by decide)

theorem perm_get_cons_eraseIdx {α : Type} :
    ∀ (l : List α) (i : Fin l.length), l.Perm (l.get i :: l.eraseIdx i.val)
  | _ :: t, ⟨0, _⟩ => by simp [List.eraseIdx]
  | a :: t, ⟨j + 1, h⟩ => by
    have ih := perm_get_cons_eraseIdx t ⟨j, Nat.lt_of_succ_lt_succ h⟩
    have h1 : ((a :: t).get ⟨j + 1, h⟩) = t.get ⟨j, Nat.lt_of_succ_lt_succ h⟩ := rfl
    have h2 : (a :: t).eraseIdx (j + 1) = a :: t.eraseIdx j := rfl
    rw [h1, h2]
    exact (ih.cons a).trans (List.Perm.swap _ _ _)

theorem shuffleAux_perm {α : Type} :
    ∀ (fuel s : Nat) (l : List α), l.length ≤ fuel →
      (shuffleAux fuel s l).Perm l
  | 0, _, [], _ => by simp [shuffleAux]
  | 0, _, _ :: t, h => absurd h (by simp)
  | _ + 1, _, [], _ => by simp [shuffleAux]
  | fuel + 1, s, a :: t, h => by
    have hi : s % (a :: t).length < (a :: t).length :=
      Nat.mod_lt _ (Nat.succ_pos t.length)
    have hlen : ((a :: t).eraseIdx (s % (a :: t).length)).length ≤ fuel := by
      rw [List.length_eraseIdx_of_lt hi]
      simp only [List.length_cons] at h ⊢
      omega
    have ih := shuffleAux_perm fuel (lcgNext s) _ hlen
    exact (ih.cons _).trans
      (perm_get_cons_eraseIdx (a :: t) ⟨s % (a :: t).length, hi⟩).symm

/-- A shuffle is a permutation of its input. -/
theorem shuffle_perm {α : Type} (seed : Nat) (l : List α) :
    (shuffle seed l).Perm l :=
  shuffleAux_perm l.length seed l (le_refl _)

theorem train_test_split_perm {α : Type} (l : List α) (seed : Nat) :
    ((train_test_split l seed).1 ++ (train_test_split l seed).2).Perm l := by
  have h1 : ((shuffle seed l).drop ((3 * l.length + 9) / 10) ++
      (shuffle seed l).take ((3 * l.length + 9) / 10)).Perm (shuffle seed l) := by
    have h2 := @List.perm_append_comm _
      ((shuffle seed l).drop ((3 * l.length + 9) / 10))
      ((shuffle seed l).take ((3 * l.length + 9) / 10))
    rwa [List.take_append_drop] at h2
  simpa [train_test_split] using h1.trans (shuffle_perm seed l)

theorem train_test_split_sizes {α : Type} (l : List α) (seed : Nat) :
    (train_test_split l seed).1.length + (train_test_split l seed).2.length = l.length ∧
    3 * l.length ≤ 10 * (train_test_split l seed).2.length ∧
    10 * (train_test_split l seed).2.length ≤ 3 * l.length + 9 := by
  have hsh : (shuffle seed l).length = l.length := (shuffle_perm seed l).length_eq
  simp only [train_test_split, List.length_drop, List.length_take, hsh]
  omega

/-- C3: both split policies partition their input — the two output
subsets recombine to a permutation of the input, so every record lands
in exactly one subset; the two subset sizes sum back to the input size
(for the energy chain, train + validation + test equals the total row
count); and the random policy's test-subset size is `⌈0.3·n⌉`, within
one record of the requested 30% fraction (`3n ≤ 10·|test| ≤ 3n + 9`). -/
theorem C3_partition_and_sizes :
    (∀ (cutA cutB : Nat) (d : List ERec),
        ((temporal_split cutA d).1 ++ (temporal_split cutA d).2).Perm d ∧
        (temporal_split cutA d).1.length + (temporal_split cutA d).2.length
          = d.length ∧
        (temporal_split cutB (temporal_split cutA d).1).1.length +
          (temporal_split cutB (temporal_split cutA d).1).2.length +
          (temporal_split cutA d).2.length = d.length) ∧
    (∀ {α : Type} (l : List α) (seed : Nat),
        ((train_test_split l seed).1 ++ (train_test_split l seed).2).Perm l ∧
        (train_test_split l seed).1.length + (train_test_split l seed).2.length
          = l.length ∧
        3 * l.length ≤ 10 * (train_test_split l seed).2.length ∧
        10 * (train_test_split l seed).2.length ≤ 3 * l.length + 9) := by
  constructor
  · intro cutA cutB d
    refine ⟨temporal_split_perm cutA d, temporal_split_length cutA d, ?_⟩
    have h1 := temporal_split_length cutB (temporal_split cutA d).1
    have h2 := temporal_split_length cutA d
    omega
  · intro α l seed
    exact ⟨train_test_split_perm l seed, train_test_split_sizes l seed⟩

/-- C5: the random split is deterministic in its inputs and seed — two
runs of `train_test_split` on equal row lists with equal seeds return
equal partitions, hence identical membership of every record on each
side.  (The embedding is a pure function of the row list and the seed;
no other state enters.) -/
theorem C5_split_deterministic_in_seed :
    ∀ {α : Type} (l₁ l₂ : List α) (s₁ s₂ : Nat), l₁ = l₂ → s₁ = s₂ →
      train_test_split l₁ s₁ = train_test_split l₂ s₂ ∧
      ∀ r, (r ∈ (train_test_split l₁ s₁).1 ↔ r ∈ (train_test_split l₂ s₂).1) ∧
           (r ∈ (train_test_split l₁ s₁).2 ↔ r ∈ (train_test_split l₂ s₂).2) := by
  intro α l₁ l₂ s₁ s₂ hl hs
  subst hl
  subst hs
  exact ⟨rfl, fun r => ⟨Iff.rfl, Iff.rfl⟩⟩

/-- Witness for C5: two runs of the seed-100, 30%-test split on the
concrete row list `[10, 20, 30]` agree exactly. -/
theorem C5_split_deterministic_in_seed_witness :
    train_test_split [10, 20, 30] 100 = train_test_split [10, 20, 30] 100 ∧
    ∀ r, (r ∈ (train_test_split [10, 20, 30] 100).1 ↔
            r ∈ (train_test_split [10, 20, 30] 100).1) ∧
         (r ∈ (train_test_split [10, 20, 30] 100).2 ↔
            r ∈ (train_test_split [10, 20, 30] 100).2) :=
  C5_split_deterministic_in_seed [10, 20, 30] [10, 20, 30] 100 100 rfl rfl

/-- C4 counterexample: the energy scenario's feature matrix, obtained by
popping only the `demand` target from the test frame (`y_test =
test.pop('demand').values; X_test = test`), still contains the ordering
column `timeStamp` — refuting the claim that feature vectors never
include the ordering column.  Shown on a concrete one-row frame. -/
theorem C4_counterexample :
    "timeStamp" ∈
      ((Frame.popColumn ⟨energyCols, [[20170101, 5, 0, 3]]⟩ "demand").1).cols := by
  decide

/-- C4 amended: feature extraction always excludes the target column; in
the maintenance scenario `iloc[:,2:26]` also excludes the grouping column
`unit` and the ordering column `cycle` (keeping exactly the 24 sensor/os
columns); but in the energy scenario the ordering column `timeStamp` is
retained as a feature — only `demand` is removed. -/
theorem C4_feature_columns_amended :
    (∀ rows : List (List ℚ),
        ((Frame.popColumn ⟨energyCols, rows⟩ "demand").1).cols
          = ["timeStamp", "precip", "temp"] ∧
        "demand" ∉ ((Frame.popColumn ⟨energyCols, rows⟩ "demand").1).cols) ∧
    (∀ rows : List (List ℚ),
        "unit" ∉ (Frame.ilocCols ⟨turbofanLabeledCols, rows⟩ 2 26).cols ∧
        "cycle" ∉ (Frame.ilocCols ⟨turbofanLabeledCols, rows⟩ 2 26).cols ∧
        "rul" ∉ (Frame.ilocCols ⟨turbofanLabeledCols, rows⟩ 2 26).cols ∧
        (Frame.ilocCols ⟨turbofanLabeledCols, rows⟩ 2 26).cols.length = 24) := by
  constructor
  · intro rows
    constructor
    · show energyCols.eraseIdx (energyCols.indexOf "demand")
        = ["timeStamp", "precip", "temp"]
      decide
    · show "demand" ∉ energyCols.eraseIdx (energyCols.indexOf "demand")
      decide
  · intro rows
    refine ⟨?_, ?_, ?_, ?_⟩
    · show "unit" ∉ (turbofanLabeledCols.drop 2).take (26 - 2)
      decide
    · show "cycle" ∉ (turbofanLabeledCols.drop 2).take (26 - 2)
      decide
    · show "rul" ∉ (turbofanLabeledCols.drop 2).take (26 - 2)
      decide
    · show ((turbofanLabeledCols.drop 2).take (26 - 2)).length = 24
      decide

/-- C6: on equal-length inputs, `alignAndFilterMissing` returns sequences
of equal length with no missing value in either output, and the output
pairs are exactly the input pairs at positions where neither side is
missing, in order. -/
theorem C6_alignAndFilterMissing_correct :
    ∀ (a b : List (Option ℚ)), a.length = b.length →
      (alignAndFilterMissing a b).1.length = (alignAndFilterMissing a b).2.length ∧
      (∀ x ∈ (alignAndFilterMissing a b).1, x.isSome = true) ∧
      (∀ x ∈ (alignAndFilterMissing a b).2, x.isSome = true) ∧
      (alignAndFilterMissing a b).1.zip (alignAndFilterMissing a b).2
        = (a.zip b).filter fun p => !(p.1.isNone || p.2.isNone) := by
  intro a
  induction a with
  | nil =>
    intro b hb
    simp [alignAndFilterMissing, nanMask, maskSelect]
  | cons x xs ih =>
    intro b hb
    cases b with
    | nil => simp at hb
    | cons y ys =>
      have hlen : xs.length = ys.length := by simpa using hb
      obtain ⟨ih1, ih2, ih3, ih4⟩ := ih ys hlen
      rcases x with _ | vx
      · refine ⟨ih1, ?_, ?_, ?_⟩
        · simpa [alignAndFilterMissing, nanMask, maskSelect] using ih2
        · simpa [alignAndFilterMissing, nanMask, maskSelect] using ih3
        · simpa [alignAndFilterMissing, nanMask, maskSelect] using ih4
      · rcases y with _ | vy
        · refine ⟨ih1, ?_, ?_, ?_⟩
          · simpa [alignAndFilterMissing, nanMask, maskSelect] using ih2
          · simpa [alignAndFilterMissing, nanMask, maskSelect] using ih3
          · simpa [alignAndFilterMissing, nanMask, maskSelect] using ih4
        · refine ⟨?_, ?_, ?_, ?_⟩
          · simpa [alignAndFilterMissing, nanMask, maskSelect] using ih1
          · intro z hz
            simp only [alignAndFilterMissing, nanMask, maskSelect,
              List.zipWith_cons_cons, Option.isNone_some, Bool.or_self,
              Bool.not_false, if_true] at hz
            rcases List.mem_cons.mp hz with h | h
            · subst h; rfl
            · exact ih2 z (by simpa [alignAndFilterMissing, nanMask] using h)
          · intro z hz
            simp only [alignAndFilterMissing, nanMask, maskSelect,
              List.zipWith_cons_cons, Option.isNone_some, Bool.or_self,
              Bool.not_false, if_true] at hz
            rcases List.mem_cons.mp hz with h | h
            · subst h; rfl
            · exact ih3 z (by simpa [alignAndFilterMissing, nanMask] using h)
          · simpa [alignAndFilterMissing, nanMask, maskSelect] using ih4

/-- Witness for C6: on the concrete equal-length pair
`[1, NaN, 3]` / `[4, 5, NaN]`, the aligned outputs have equal length. -/
theorem C6_alignAndFilterMissing_correct_witness :
    ([some 1, none, some 3] : List (Option ℚ)).length
        = ([some 4, some 5, none] : List (Option ℚ)).length ∧
    (alignAndFilterMissing [some 1, none, some 3] [some 4, some 5, none]).1.length
      = (alignAndFilterMissing [some 1, none, some 3] [some 4, some 5, none]).2.length :=
  ⟨rfl,
   (C6_alignAndFilterMissing_correct [some 1, none, some 3]
     [some 4, some 5, none] rfl).1⟩

/-- C7: `check_data` fails exactly when the two sequences have unequal
lengths or are empty; each failure carries the message naming the
violated invariant, and otherwise the alignment result is returned to
the caller (a single `Except.error`, no retry). -/
theorem C7_check_data_errors :
    ∀ (a b : List (Option ℚ)),
      ((∃ e, check_data a b = .error e) ↔ (a.length ≠ b.length ∨ a = [])) ∧
      (a.length ≠ b.length →
        check_data a b
          = .error "the true values and prediction values do not have equal length.") ∧
      (a.length = b.length → a = [] →
        check_data a b = .error "y_true and y_pred are empty.") ∧
      (a.length = b.length → a ≠ [] →
        check_data a b = .ok (alignAndFilterMissing a b)) := by
  intro a b
  refine ⟨⟨?_, ?_⟩, ?_, ?_, ?_⟩
  · rintro ⟨e, he⟩
    by_cases h1 : a.length = b.length
    · by_cases h2 : a = []
      · exact Or.inr h2
      · exfalso
        have h3 : a.length ≠ 0 := fun h0 => h2 (List.length_eq_zero.mp h0)
        have hb : b ≠ [] := by
          intro hb0
          rw [hb0] at h1
          exact h3 (by simpa using h1)
        simp [check_data, h1, h3, hb] at he
    · exact Or.inl h1
  · intro h
    rcases h with h | h
    · exact ⟨"the true values and prediction values do not have equal length.",
        by simp [check_data, h]⟩
    · subst h
      by_cases h1 : ([] : List (Option ℚ)).length = b.length
      · exact ⟨"y_true and y_pred are empty.", by simp [check_data, ← h1]⟩
      · have h1b : ¬(0 = b.length) := by simpa using h1
        exact ⟨"the true values and prediction values do not have equal length.",
          by simp [check_data, h1b]⟩
  · intro h
    simp [check_data, h]
  · intro h1 h2
    subst h2
    simp [check_data, ← h1]
  · intro h1 h2
    have h3 : a.length ≠ 0 := fun h0 => h2 (List.length_eq_zero.mp h0)
    have hb : b ≠ [] := by
      intro hb0
      rw [hb0] at h1
      exact h3 (by simpa using h1)
    simp [check_data, h1, h3, hb]

/-- Witness for C7: on the concrete unequal-length pair `[1]` / `[]`,
`check_data` returns the length-mismatch `ValueError` message. -/
theorem C7_check_data_errors_witness :
    check_data [some 1] []
      = .error "the true values and prediction values do not have equal length." :=
  (C7_check_data_errors [some 1] []).2.1 (by decide)

/-- `run` of `score_energy_demand.py` always returns the error object for
the set-serialization `TypeError`. -/
theorem run_energy_demand_eq (model : List ℚ → List ℚ)
    (timestamp precip temp : PyVal) :
    run_energy_demand model timestamp precip temp
      = .obj [("error", .str "Object of type set is not JSON serializable")] := by
  simp [run_energy_demand, json_dumps, serializable]

/-- C8 counterexample: `run` of `score.py` on a concrete request returns
a bare JSON array — neither the `result`-object shape nor the
`error`-object shape — refuting the claim that the serving boundary's run
function always returns one of those two shapes. -/
theorem C8_counterexample :
    isResultShape (run_score constZeroModel [[1, 2]]) = false ∧
    isErrorShape (run_score constZeroModel [[1, 2]]) = false := by
  decide

/-- C8 amended: the energy-demand scoring `run` does return one of the
two contract shapes on every request (in fact always the error shape),
but the maintenance scoring `run` returns the bare JSON array of
predictions, which is neither contract shape, and it has no error
branch. -/
theorem C8_serving_shapes_amended :
    (∀ (model : List ℚ → List ℚ) (timestamp precip temp : PyVal),
        isErrorShape (run_energy_demand model timestamp precip temp) = true ∨
        isResultShape (run_energy_demand model timestamp precip temp) = true) ∧
    (∀ (model : List (List ℚ) → List ℚ) (data : List (List ℚ)),
        run_score model data = .arr ((model (reshape_one_row data)).map .num) ∧
        isResultShape (run_score model data) = false ∧
        isErrorShape (run_score model data) = false) := by
  constructor
  · intro model t p te
    rw [run_energy_demand_eq model t p te]
    exact Or.inl rfl
  · intro model data
    exact ⟨rfl, rfl, rfl⟩

/-- C9: for every input, `run` of `score_energy_demand.py` never reaches
its success return: serializing the set literal `{timestamp, precip,
temp}` raises a `TypeError` (and the bare name `numpy` is undefined
besides), so the exception branch always returns the JSON object with
the `error` key — never the `result` shape. -/
theorem C9_run_energy_demand_always_errors :
    ∀ (model : List ℚ → List ℚ) (timestamp precip temp : PyVal),
      run_energy_demand model timestamp precip temp
        = .obj [("error", .str "Object of type set is not JSON serializable")] ∧
      isErrorShape (run_energy_demand model timestamp precip temp) = true ∧
      isResultShape (run_energy_demand model timestamp precip temp) = false := by
  intro model t p te
  have h := run_energy_demand_eq model t p te
  exact ⟨h, by rw [h]; decide, by rw [h]; decide⟩

/-- C10: `run` of `score.py` reshapes the request's `data` payload to a
single row (`reshape(1,-1)`), so any model honoring the
one-prediction-per-row contract yields a returned prediction array of
length exactly 1, whatever the number of rows in the request body. -/
theorem C10_run_score_single_sample :
    ∀ (model : List (List ℚ) → List ℚ) (data : List (List ℚ)),
      (∀ m : List (List ℚ), (model m).length = m.length) →
      (reshape_one_row data).length = 1 ∧
      ∃ ys : List PyVal, run_score model data = .arr ys ∧ ys.length = 1 := by
  intro model data hmodel
  refine ⟨rfl, (model (reshape_one_row data)).map .num, rfl, ?_⟩
  rw [List.length_map, hmodel]
  rfl

/-- Witness for C10: on the concrete two-row request `[[1,2],[3,4]]` and
the length-respecting stand-in model, the reshaped data is one row and
the returned prediction array has length 1. -/
theorem C10_run_score_single_sample_witness :
    (reshape_one_row [[1, 2], [3, 4]]).length = 1 ∧
    ∃ ys : List PyVal,
      run_score constZeroModel [[1, 2], [3, 4]] = .arr ys ∧ ys.length = 1 :=
  C10_run_score_single_sample constZeroModel [[1, 2], [3, 4]]
    (fun m => by simp [constZeroModel])

end AutomlWorkshop
